import Mathlib

/-!
Shallow embedding of `src/utils/dataset.py` (MELBA repository).

Conventions of the embedding:
  * Pixel intensities, calibration values and labels are rationals (`ℚ`);
    the Python code works in floats but every operation the claims touch is
    exact arithmetic on small integers, so `ℚ` models it without rounding.
  * A Python operation that raises is modelled with `Option`/`Except`:
    `none`/`.error` is the raised exception.
  * `torch.stack` on a list of equally-shaped 2D tensors is a list of
    channels; `torch.cat` along the channel dimension is list append.
  * Filesystem state is passed explicitly (a record of what is on disk).
-/

/-- A 2D image: rows of pixel values. -/
abbrev Image2D := List (List ℚ)

/-- Modelled from the spec: `window_image` lives in `preprocessing.py`, which is
not part of the sources; spec section 4.1 gives its algorithm.
`hu = image * slope + intercept`; bounds `low = center - width/2`,
`high = center + width/2`; clip to `[low, high]`; linear rescale with
`low -> 0`, `high -> 1`. Same shape as the input. -/
def window_image (image : Image2D) (window : ℤ × ℤ) (intercept slope : ℤ) : Image2D :=
  let c : ℚ := (window.1 : ℚ)
  let w : ℚ := (window.2 : ℚ)
  let low := c - w / 2
  let high := c + w / 2
  image.map (fun row => row.map (fun v =>
    let hu := v * (slope : ℚ) + (intercept : ℚ)
    let clipped := max low (min high hu)
    (clipped - low) / (high - low)))

/-- Model of `torch.stack`: stacking an empty tensor list raises
(`stack expects a non-empty TensorList`), hence `none` on `[]`. -/
def torchStack {α : Type} (l : List α) : Option (List α) :=
  match l with
  | [] => none
  | _ :: _ => some l

/-- `_get_image_windows` (dataset.py lines 198-203): one `window_image` result
per requested window, in request order, then `torch.stack`. -/
def _get_image_windows (image : Image2D) (windows : List (ℤ × ℤ))
    (intercept slope : ℤ) : Option (List Image2D) :=
  torchStack (windows.map (fun w => window_image image w intercept slope))

/-- `RSNAICHDataset.__getitem__` image construction (dataset.py lines 40-44),
after the 2D read has produced the pixel grid and the calibration params
`(c, w, intercept, slope)`; `self.windows` is `none` when the caller supplied
no windows (the constructor default) and `some ws` otherwise.  The
`transform=None` default is assumed (no post-transform). -/
def rsna_getitem_image (image : Image2D) (c w intercept slope : ℤ)
    (windows : Option (List (ℤ × ℤ))) : Option (List Image2D) :=
  match _get_image_windows image [(c, w)] intercept slope with
  | none => none
  | some default_window =>
    match windows with
    | some ws =>
      match _get_image_windows image ws intercept slope with
      | none => none
      | some caller => some (default_window ++ caller)
    | none => some default_window

/-- `PhysioNetICHDataset.__getitem__` image construction (dataset.py
lines 113-117): identical shape to the RSNA one with the fixed default window
`(40, 120)` and calibration `intercept = 0`, `slope = 1`. -/
def physionet_getitem_image (image : Image2D)
    (windows : Option (List (ℤ × ℤ))) : Option (List Image2D) :=
  match _get_image_windows image [(40, 120)] 0 1 with
  | none => none
  | some default_window =>
    match windows with
    | some ws =>
      match _get_image_windows image ws 0 1 with
      | none => none
      | some caller => some (default_window ++ caller)
    | none => some default_window

/-- `numpy`-style max of a mask flattened to a list; `0` is never reached on
the nonempty arrays the dataset produces. -/
def npMax : List ℚ → ℚ
  | [] => 0
  | x :: xs => xs.foldl max x

/-- `numpy`-style min, as `npMax`. -/
def npMin : List ℚ → ℚ
  | [] => 0
  | x :: xs => xs.foldl min x

/-- Division as the mask normalization performs it: a zero denominator is the
`0/0 -> nan` case of numpy, modelled as `none`. -/
def pdiv (a b : ℚ) : Option ℚ :=
  if b = 0 then none else some (a / b)

/-- Sequence a list of fallible computations, failing on the first failure;
models a Python list comprehension whose body can raise. -/
def optTraverse {α β : Type} (f : α → Option β) : List α → Option (List β)
  | [] => some []
  | a :: as =>
    match f a with
    | none => none
    | some b =>
      match optTraverse f as with
      | none => none
      | some bs => some (b :: bs)

/-- `PhysioNetICHDataset.__getitem__` mask step (dataset.py lines 110-111):
`if mask.max() > 0: mask = (mask - mask.min()) / (mask.max() - mask.min())`.
The mask is flattened to a list of values; `none` marks that the element-wise
division was performed with a zero denominator (numpy nan). -/
def physionet_getitem_mask (mask : List ℚ) : Option (List ℚ) :=
  if 0 < npMax mask then
    optTraverse (fun x => pdiv (x - npMin mask) (npMax mask - npMin mask)) mask
  else
    some mask

/-- A DICOM metadata field: `pydicom.multival.MultiValue` or a single value
(dataset.py lines 216-222 branch on exactly this). -/
inductive DicomField : Type
  | multiValue : List ℚ → DicomField
  | scalar : ℚ → DicomField
deriving DecidableEq

/-- Python `int(q)`: truncation toward zero (`Int.tdiv` is T-division). -/
def pyInt (q : ℚ) : ℤ :=
  q.num.tdiv (q.den : ℤ)

/-- `_get_first_of_dicom_field_as_int` (dataset.py lines 216-222):
`int(data[0])` on a MultiValue (IndexError on an empty one, hence `none`),
`int(data)` otherwise. -/
def _get_first_of_dicom_field_as_int : DicomField → Option ℤ
  | .multiValue xs => xs.head?.map pyInt
  | .scalar v => some (pyInt v)

/-- A parsed DICOM file: the four calibration fields read by
`_get_windowing` plus the pixel array. -/
structure DicomFile : Type where
  windowCenter : DicomField
  windowWidth : DicomField
  intercept : DicomField
  slope : DicomField
  pixelArray : Image2D
deriving DecidableEq

/-- `_get_windowing` (dataset.py lines 225-231): the four fields
(window center, window width, intercept, slope) in that order, each sent
through `_get_first_of_dicom_field_as_int`. -/
def _get_windowing (d : DicomFile) : Option (List ℤ) :=
  optTraverse _get_first_of_dicom_field_as_int
    [d.windowCenter, d.windowWidth, d.intercept, d.slope]

/-- Error taxonomy of the readers (spec section 7): the failed
`os.path.isfile` assertion is `notFound`; a failing calibration extraction is
`malformedCalibration`. -/
inductive ReadError : Type
  | notFound
  | malformedCalibration
deriving DecidableEq

/-- `_read_image_2d` (dataset.py lines 234-241): the filesystem is the list of
(path, parsed content) pairs; a path that is not an existing file fails the
`os.path.isfile` assertion (`notFound`); otherwise the windowing parameters
are extracted and the pixel array returned with them. -/
def _read_image_2d (fsys : List (String × DicomFile)) (file_path : String) :
    Except ReadError (Image2D × List ℤ) :=
  match List.lookup file_path fsys with
  | none => .error .notFound
  | some d =>
    match _get_windowing d with
    | none => .error .malformedCalibration
    | some window_params => .ok (d.pixelArray, window_params)

/-- A square-sliced 3D volume: `n × n` slices indexed by the third axis
(the CT data the code reads is square, 512 by 512). -/
def Volume (n d : Nat) : Type := Fin n → Fin n → Fin d → ℚ

/-- `image.permute(2, 0, 1)` on an `(h, w, d)` tensor: the slice index
becomes the leading (batch) dimension. -/
def permute201 {n d : Nat} (v : Volume n d) : Fin d → Fin n → Fin n → ℚ :=
  fun z x y => v x y z

/-- `torchvision.transforms.functional.rotate(·, 90)` applied to a batch of
square slices: nearest interpolation on a 90-degree rotation about the centre
of a square grid is the exact index permutation
`out[x][y] = in[y][n-1-x]` (`Fin.rev` is `n-1-·`), the same for every batch
element. -/
def rotate90Batch {n d : Nat} (img : Fin d → Fin n → Fin n → ℚ) :
    Fin d → Fin n → Fin n → ℚ :=
  fun z x y => img z y x.rev

/-- `.permute(1, 2, 0)`: the inverse of `permute201`, restoring the slice
index to the trailing axis. -/
def permute120 {n d : Nat} (img : Fin d → Fin n → Fin n → ℚ) : Volume n d :=
  fun x y z => img z x y

/-- The pixel transformation of `_read_image_3d` (dataset.py lines 210-213):
`rotate(image.permute(2, 0, 1), 90).permute(1, 2, 0)` when `do_rotate` is
set, the identity otherwise. -/
def _read_image_3d_data {n d : Nat} (v : Volume n d) (do_rotate : Bool) :
    Volume n d :=
  match do_rotate with
  | true => permute120 (rotate90Batch (permute201 v))
  | false => v

/-- A NIfTI file on disk: its dimensions and voxel grid. -/
structure NiftiFile : Type where
  n : Nat
  d : Nat
  data : Volume n d

/-- `_read_image_3d` (dataset.py lines 206-213): `notFound` when the path is
not an existing file (the `os.path.isfile` assertion), otherwise the loaded
volume, rotated slice-wise when requested. -/
def _read_image_3d (fsys : List (String × NiftiFile)) (file_path : String)
    (do_rotate : Bool) : Except ReadError NiftiFile :=
  match List.lookup file_path fsys with
  | none => .error .notFound
  | some f => .ok ⟨f.n, f.d, _read_image_3d_data f.data do_rotate⟩

/-- `PhysioNetICHDataset.read_dataset` loading step (dataset.py lines 88-89):
the scan and its mask are read with the identical `do_rotate=True` setting. -/
def read_dataset_pair {n d : Nat} (scan mask : Volume n d) :
    Volume n d × Volume n d :=
  (_read_image_3d_data scan true, _read_image_3d_data mask true)

/-- The subtype column names used by `rsna_train_valid_split`
(dataset.py line 159). -/
def SUBTYPES : List String :=
  ["epidural", "intraparenchymal", "intraventricular", "subarachnoid",
   "subdural", "any"]

/-- The fixed denylist of known-corrupted files (dataset.py line 170). -/
def corrupted_files : List String :=
  ["ID_6431af929.dcm"]

/-- The denylist removal loop (dataset.py lines 171-173): Python
`list.remove` drops the first occurrence, guarded by a membership test. -/
def removeCorrupted (files : List String) : List String :=
  corrupted_files.foldl
    (fun fs c => if c ∈ fs then fs.erase c else fs) files

/-- Characters before the first `'.'` of a name (all of it when there is
none). -/
def takeUntilDot : List Char → List Char
  | [] => []
  | c :: cs => if c = '.' then [] else c :: takeUntilDot cs

/-- `filename.split('.')[0]`: the base identifier of a filename, the prefix
before the first dot. -/
def baseId (filename : String) : String :=
  String.mk (takeUntilDot filename.data)

/-- The `labels_dict` built from the parsed CSV rows (dataset.py
lines 175-181): later rows overwrite earlier ones, as Python dict
assignment does.  The CSV is modelled already parsed: the data rows
(header removed) as (id_subtype, value) pairs. -/
def buildLabelsDict (rows : List (String × ℚ)) : String → Option ℚ :=
  rows.foldl (fun dict row => fun k => if k = row.1 then some row.2 else dict k)
    (fun _ => none)

/-- The per-file label row (dataset.py line 187):
`[labels_dict[filename.split('.')[0] + "_" + x] for x in SUBTYPES]`;
a missing key raises (`none`). -/
def fileLabels (labels_dict : String → Option ℚ) (filename : String) :
    Option (List ℚ) :=
  optTraverse (fun st => labels_dict (baseId filename ++ "_" ++ st)) SUBTYPES

/-- One step of the 31-bit linear congruential generator standing in for the
library pseudorandom source. -/
def lcgStep (s : Nat) : Nat :=
  (s * 1103515245 + 12345) % 2147483648

/-- Fisher-Yates shuffle with explicit fuel (the pool length): repeatedly
draw an index into the remaining pool and move that element to the output. -/
def fyAux : Nat → Nat → List Nat → List Nat → List Nat
  | 0, _, _, acc => acc
  | fuel + 1, s, pool, acc =>
    match pool with
    | [] => acc
    | p :: ps =>
      let s2 := lcgStep s
      let j := s2 % (p :: ps).length
      fyAux fuel s2 ((p :: ps).eraseIdx j) ((p :: ps).getD j 0 :: acc)

/-- The seeded permutation of `sklearn`'s splitter, modelled as a
Fisher-Yates shuffle driven by a deterministic generator (the spec's design
note sanctions exactly this replacement for the library routine). -/
def seededShuffle (seed : Nat) (l : List Nat) : List Nat :=
  fyAux l.length seed l []

/-- `ceil(n * test_size)` with the fraction as `num/den`, the test-set size
rule of `sklearn.model_selection.train_test_split`. -/
def nTest (n num den : Nat) : Nat :=
  (n * num + den - 1) / den

/-- `sklearn.model_selection.train_test_split(files, labels, test_size,
random_state)` (dataset.py line 191): permute the indices with the seeded
generator, take the first `nTest` as the test (validation) set and the rest
as the train set; returns
`(train_files, test_files, train_labels, test_labels)`. -/
def train_test_split (files : List String) (labels : List (List ℚ))
    (num den seed : Nat) :
    List String × List String × List (List ℚ) × List (List ℚ) :=
  let n := files.length
  let p := seededShuffle seed (List.range n)
  let t := nTest n num den
  let testIdx := p.take t
  let trainIdx := p.drop t
  (trainIdx.map (fun i => files.getD i ""),
   testIdx.map (fun i => files.getD i ""),
   trainIdx.map (fun i => labels.getD i []),
   testIdx.map (fun i => labels.getD i []))

/-- Split construction failure (spec section 7): the label table misses an
enumerated file's key (the Python `labels_dict[...]` KeyError). -/
inductive SplitError : Type
  | missingLabel
deriving DecidableEq

/-- The four collections `rsna_train_valid_split` returns, in its return
order: train filenames, train labels, validation filenames, validation
labels. -/
structure SplitResult : Type where
  trainFiles : List String
  trainLabels : List (List ℚ)
  validFiles : List String
  validLabels : List (List ℚ)
deriving DecidableEq

/-- The filesystem state `rsna_train_valid_split` touches: the
`stage_2_train` directory listing, the parsed `stage_2_train.csv` data rows,
and the four persisted split artifacts (each `none` when the file does not
exist). -/
structure RsnaFS : Type where
  dirFiles : List String
  labelCsv : List (String × ℚ)
  trainFileArt : Option (List String)
  trainLabelArt : Option (List (List ℚ))
  validFileArt : Option (List String)
  validLabelArt : Option (List (List ℚ))
deriving DecidableEq

/-- The rebuild path of `rsna_train_valid_split` (dataset.py lines 166-191):
enumerate, remove the denylist, build the label rows (failing with
`missingLabel` on a missing key), and split.  It reads only the directory
listing and the CSV, which are its two arguments. -/
def rsnaRebuildCore (dir : List String) (csv : List (String × ℚ))
    (num den seed : Nat) : Except SplitError SplitResult :=
  let total := removeCorrupted dir
  match optTraverse (fileLabels (buildLabelsDict csv)) total with
  | none => .error .missingLabel
  | some labels =>
    let r := train_test_split total labels num den seed
    .ok ⟨r.1, r.2.2.1, r.2.1, r.2.2.2⟩

/-- Write the four artifacts (dataset.py lines 192-193): only the artifact
fields of the state change. -/
def writeArtifacts (fs : RsnaFS) (r : SplitResult) : RsnaFS :=
  ⟨fs.dirFiles, fs.labelCsv, some r.trainFiles, some r.trainLabels,
   some r.validFiles, some r.validLabels⟩

/-- `rsna_train_valid_split` (dataset.py lines 154-195): when all four
persisted artifacts exist and `override` is false, load and return them with
the state untouched; otherwise rebuild from the directory listing and the
CSV and persist the result. -/
def rsna_train_valid_split (fs : RsnaFS) (num den seed : Nat)
    (override : Bool) : Except SplitError (SplitResult × RsnaFS) :=
  if fs.trainFileArt.isSome ∧ fs.validFileArt.isSome ∧
      fs.trainLabelArt.isSome ∧ fs.validLabelArt.isSome ∧ override = false then
    .ok (⟨fs.trainFileArt.getD [], fs.trainLabelArt.getD [],
          fs.validFileArt.getD [], fs.validLabelArt.getD []⟩, fs)
  else
    match rsnaRebuildCore fs.dirFiles fs.labelCsv num den seed with
    | .error e => .error e
    | .ok r => .ok (r, writeArtifacts fs r)

/-! ### Helper lemmas -/

theorem optTraverse_eq_none {α β : Type} (f : α → Option β) {l : List α}
    {a : α} (ha : a ∈ l) (hf : f a = none) : optTraverse f l = none := by
  induction l with
  | nil => cases ha
  | cons b bs ih =>
    rcases List.mem_cons.mp ha with rfl | hmem
    · simp [optTraverse, hf]
    · cases hfb : f b
      · simp [optTraverse, hfb]
      · simp [optTraverse, hfb, ih hmem]

theorem optTraverse_isSome {α β : Type} (f : α → Option β) :
    ∀ l : List α, (∀ a ∈ l, (f a).isSome) →
      ∃ bs, optTraverse f l = some bs := by
  intro l
  induction l with
  | nil => exact fun _ => ⟨[], rfl⟩
  | cons b bs ih =>
    intro h
    obtain ⟨v, hv⟩ := Option.isSome_iff_exists.mp (h b (List.mem_cons_self b bs))
    obtain ⟨vs, hvs⟩ := ih (fun a ha => h a (List.mem_cons_of_mem b ha))
    exact ⟨v :: vs, by simp [optTraverse, hv, hvs]⟩

theorem optTraverse_pdiv_const {g : ℚ → ℚ} {c : ℚ} (hc : c ≠ 0) :
    ∀ l : List ℚ,
      optTraverse (fun x => pdiv (g x) c) l = some (l.map (fun x => g x / c)) := by
  intro l
  induction l with
  | nil => rfl
  | cons a as ih =>
    have h1 : pdiv (g a) c = some (g a / c) := by simp [pdiv, hc]
    simp only [optTraverse, h1, ih, List.map_cons]

/-! ### C1 -/

/-- C1 counterexample: with an explicitly empty caller windows list, building
the windowed tensor does not succeed: `torch.stack` of an empty list raises,
so `_get_image_windows` fails and the adapter's channel concatenation fails
with it, instead of returning a 1-channel tensor. -/
theorem c1_counterexample :
    _get_image_windows [[(0 : ℚ)]] [] 0 1 = none ∧
    rsna_getitem_image [[(0 : ℚ)]] 40 80 0 1 (some []) = none :=
  ⟨rfl, rfl⟩

/-- C1 (amended): when the caller supplies no windows (the constructor
default, `windows = None`), the adapter returns only the channel of the
default window computed from the image's own calibration, so the channel
count is exactly 1; an explicitly empty caller windows list instead makes
the channel stack fail. -/
theorem c1_default_only_channel (image : Image2D) (c w intercept slope : ℤ) :
    rsna_getitem_image image c w intercept slope none =
      some [window_image image (c, w) intercept slope] ∧
    rsna_getitem_image image c w intercept slope (some []) = none :=
  ⟨rfl, rfl⟩

/-! ### C2 -/

/-- C2: with a non-empty caller windows list of length n the adapter output
has exactly 1 + n channels in deterministic order: the default window first,
then one channel per caller window in request order; the PhysioNet adapter
(fixed default window (40,120), intercept 0, slope 1) has the same shape. -/
theorem c2_channel_order (image : Image2D) (c w intercept slope : ℤ)
    (ws : List (ℤ × ℤ)) (h : ws ≠ []) :
    rsna_getitem_image image c w intercept slope (some ws) =
      some (window_image image (c, w) intercept slope ::
        ws.map (fun win => window_image image win intercept slope)) ∧
    (window_image image (c, w) intercept slope ::
        ws.map (fun win => window_image image win intercept slope)).length =
      1 + ws.length ∧
    physionet_getitem_image image (some ws) =
      some (window_image image (40, 120) 0 1 ::
        ws.map (fun win => window_image image win 0 1)) := by
  match ws, h with
  | w0 :: ws', _ =>
    refine ⟨rfl, ?_, rfl⟩
    simp [Nat.add_comm]

/-- C2 witness: the spec's own example windows `[(40,120), (80,200)]` on a
concrete one-pixel image. -/
theorem c2_channel_order_witness :
    (([((40 : ℤ), (120 : ℤ)), (80, 200)] : List (ℤ × ℤ)) ≠ []) ∧
    rsna_getitem_image [[(0 : ℚ)]] 40 120 0 1 (some [(40, 120), (80, 200)]) =
      some (window_image [[(0 : ℚ)]] (40, 120) 0 1 ::
        [((40 : ℤ), (120 : ℤ)), (80, 200)].map
          (fun win => window_image [[(0 : ℚ)]] win 0 1)) :=
  ⟨by simp,
   (c2_channel_order [[(0 : ℚ)]] 40 120 0 1 [(40, 120), (80, 200)] (by simp)).1⟩

/-! ### C8 -/

/-- C8: for each of the four calibration fields read by the 2D reader
(window center, window width, intercept, slope, in that order), the
extracted scalar is the integer conversion of the first entry when the field
is a multi-value sequence, and the integer conversion of the value itself
when it is a single value. -/
theorem c8_first_of_field (d : DicomFile) (v : ℚ) (xs : List ℚ) :
    _get_windowing d =
      optTraverse _get_first_of_dicom_field_as_int
        [d.windowCenter, d.windowWidth, d.intercept, d.slope] ∧
    _get_first_of_dicom_field_as_int (.multiValue (v :: xs)) =
      some (pyInt v) ∧
    _get_first_of_dicom_field_as_int (.scalar v) = some (pyInt v) :=
  ⟨rfl, rfl, rfl⟩

/-! ### C9 -/

/-- C9: the 3D reader with rotation requested rotates every slice with the
identical index permutation, independent of the slice index and of the
volume, and the PhysioNet reader loads a scan and its mask with the same
rotation setting, so a voxel at a post-rotation coordinate (x, y, z) in the
mask corresponds to the same pre-rotation source coordinate
(y, rev x, z) as in the scan. -/
theorem c9_rotation_consistency (n d : Nat) (scan mask : Volume n d)
    (x y : Fin n) (z : Fin d) :
    (read_dataset_pair scan mask).1 x y z = scan y x.rev z ∧
    (read_dataset_pair scan mask).2 x y z = mask y x.rev z :=
  ⟨rfl, rfl⟩

/-! ### C7 -/

/-- C7: a path that does not reference an existing file makes `_read_image_2d`
and `_read_image_3d` fail with the not-found error; for an existing file
neither reader produces that error. -/
theorem c7_not_found (fs2 : List (String × DicomFile))
    (fs3 : List (String × NiftiFile)) (p q : String) (b : Bool) :
    (List.lookup p fs2 = none → _read_image_2d fs2 p = .error .notFound) ∧
    (∀ df, List.lookup p fs2 = some df →
      _read_image_2d fs2 p ≠ .error .notFound) ∧
    (List.lookup q fs3 = none → _read_image_3d fs3 q b = .error .notFound) ∧
    (∀ nf, List.lookup q fs3 = some nf →
      _read_image_3d fs3 q b ≠ .error .notFound) := by
  refine ⟨?_, ?_, ?_, ?_⟩
  · intro h
    simp [_read_image_2d, h]
  · intro df h
    simp only [_read_image_2d, h]
    cases hw : _get_windowing df <;> simp
  · intro h
    simp [_read_image_3d, h]
  · intro nf h
    simp [_read_image_3d, h]

/-- C7 witness: a one-file 2D filesystem and a one-file 3D filesystem, probed
at a missing and at an existing path. -/
theorem c7_not_found_witness :
    _read_image_2d [("a.dcm", ⟨.scalar 40, .scalar 80, .scalar 0, .scalar 1,
      [[0]]⟩)] "b.dcm" = .error .notFound ∧
    _read_image_2d [("a.dcm", ⟨.scalar 40, .scalar 80, .scalar 0, .scalar 1,
      [[0]]⟩)] "a.dcm" ≠ .error .notFound ∧
    _read_image_3d [("s.nii", ⟨1, 1, fun _ _ _ => 0⟩)] "t.nii" true =
      .error .notFound ∧
    _read_image_3d [("s.nii", ⟨1, 1, fun _ _ _ => 0⟩)] "s.nii" true ≠
      .error .notFound :=
  ⟨(c7_not_found [("a.dcm", ⟨.scalar 40, .scalar 80, .scalar 0, .scalar 1,
      [[0]]⟩)] [("s.nii", ⟨1, 1, fun _ _ _ => 0⟩)] "b.dcm" "t.nii" true).1 rfl,
   (c7_not_found [("a.dcm", ⟨.scalar 40, .scalar 80, .scalar 0, .scalar 1,
      [[0]]⟩)] [("s.nii", ⟨1, 1, fun _ _ _ => 0⟩)] "a.dcm" "t.nii" true).2.1
      ⟨.scalar 40, .scalar 80, .scalar 0, .scalar 1, [[0]]⟩ rfl,
   (c7_not_found [("a.dcm", ⟨.scalar 40, .scalar 80, .scalar 0, .scalar 1,
      [[0]]⟩)] [("s.nii", ⟨1, 1, fun _ _ _ => 0⟩)] "b.dcm" "t.nii" true).2.2.1
      rfl,
   (c7_not_found [("a.dcm", ⟨.scalar 40, .scalar 80, .scalar 0, .scalar 1,
      [[0]]⟩)] [("s.nii", ⟨1, 1, fun _ _ _ => 0⟩)] "b.dcm" "s.nii" true).2.2.2
      ⟨1, 1, fun _ _ _ => 0⟩ rfl⟩

/-! ### C10 -/

/-- C10 counterexample: a mask that is constant at its minimum but strictly
positive is not returned unchanged: the `mask.max() > 0` branch is taken and
the min-max division runs with a zero denominator. -/
theorem c10_counterexample :
    physionet_getitem_mask [(1 : ℚ), 1] = none ∧
    physionet_getitem_mask [(1 : ℚ), 1] ≠ some [(1 : ℚ), 1] := by
  have hmax : npMax [(1 : ℚ), 1] = 1 := rfl
  have hmin : npMin [(1 : ℚ), 1] = 1 := rfl
  have h : physionet_getitem_mask [(1 : ℚ), 1] = none := by
    simp [physionet_getitem_mask, hmax, hmin, optTraverse, pdiv]
  exact ⟨h, by simp [h]⟩

/-- C10 (amended): the mask is min-max rescaled only when its maximum is
strictly positive; when the maximum is not positive (in particular for an
all-zero mask) it is returned unchanged, so the division is never performed
with a zero denominator for an all-zero mask; when the maximum is positive
and the mask is not constant the rescale succeeds. -/
theorem c10_mask_normalization (mask : List ℚ) :
    (npMax mask ≤ 0 → physionet_getitem_mask mask = some mask) ∧
    (0 < npMax mask → npMin mask ≠ npMax mask →
      physionet_getitem_mask mask =
        some (mask.map
          (fun x => (x - npMin mask) / (npMax mask - npMin mask)))) := by
  constructor
  · intro h
    simp [physionet_getitem_mask, not_lt.mpr h]
  · intro h1 h2
    have hden : npMax mask - npMin mask ≠ 0 := sub_ne_zero.mpr (Ne.symm h2)
    simp [physionet_getitem_mask, h1, optTraverse_pdiv_const hden]

/-- C10 witness: the all-zero mask comes back unchanged; a 0/2 mask is
rescaled. -/
theorem c10_mask_normalization_witness :
    physionet_getitem_mask [(0 : ℚ), 0] = some [(0 : ℚ), 0] ∧
    physionet_getitem_mask [(0 : ℚ), 2] =
      some ([(0 : ℚ), 2].map
        (fun x => (x - npMin [(0 : ℚ), 2]) /
          (npMax [(0 : ℚ), 2] - npMin [(0 : ℚ), 2]))) :=
  ⟨(c10_mask_normalization [0, 0]).1 (by norm_num [npMax]),
   (c10_mask_normalization [0, 2]).2 (by norm_num [npMax])
     (by norm_num [npMax, npMin])⟩

/-! ### Split builder helper lemmas -/

theorem perm_getD_cons_eraseIdx :
    ∀ (l : List Nat) (j : Nat), j < l.length →
      l.Perm (l.getD j 0 :: l.eraseIdx j) := by
  intro l
  induction l with
  | nil => intro j h; simp at h
  | cons x xs ih =>
    intro j h
    cases j with
    | zero => exact List.Perm.refl _
    | succ j2 =>
      have h2 : j2 < xs.length := by
        simpa using Nat.lt_of_succ_lt_succ h
      have hp := ih j2 h2
      show (x :: xs).Perm (xs.getD j2 0 :: x :: xs.eraseIdx j2)
      exact (hp.cons x).trans (List.Perm.swap (xs.getD j2 0) x _)

theorem fyAux_perm :
    ∀ (fuel s : Nat) (pool acc : List Nat), pool.length ≤ fuel →
      (fyAux fuel s pool acc).Perm (pool ++ acc) := by
  intro fuel
  induction fuel with
  | zero =>
    intro s pool acc h
    have hnil : pool = [] := List.length_eq_zero.mp (Nat.le_zero.mp h)
    subst hnil
    exact List.Perm.refl _
  | succ n ih =>
    intro s pool acc h
    cases pool with
    | nil => exact List.Perm.refl _
    | cons p ps =>
      have hj : lcgStep s % (p :: ps).length < (p :: ps).length :=
        Nat.mod_lt _ (by simp)
      have hlen :
          ((p :: ps).eraseIdx (lcgStep s % (p :: ps).length)).length ≤ n := by
        rw [List.length_eraseIdx, if_pos hj]
        simp only [List.length_cons] at h ⊢
        omega
      have hstep := ih (lcgStep s)
        ((p :: ps).eraseIdx (lcgStep s % (p :: ps).length))
        ((p :: ps).getD (lcgStep s % (p :: ps).length) 0 :: acc) hlen
      show (fyAux n (lcgStep s)
          ((p :: ps).eraseIdx (lcgStep s % (p :: ps).length))
          ((p :: ps).getD (lcgStep s % (p :: ps).length) 0 :: acc)).Perm
          ((p :: ps) ++ acc)
      refine hstep.trans (List.perm_middle.trans ?_)
      exact ((perm_getD_cons_eraseIdx (p :: ps) _ hj).symm).append_right acc

theorem seededShuffle_perm (seed : Nat) (l : List Nat) :
    (seededShuffle seed l).Perm l := by
  have h := fyAux_perm l.length seed l [] (Nat.le_refl _)
  simpa using h

theorem seededShuffle_range_lt {seed n i : Nat}
    (hi : i ∈ seededShuffle seed (List.range n)) : i < n :=
  List.mem_range.mp ((seededShuffle_perm seed (List.range n)).mem_iff.mp hi)

theorem seededShuffle_range_nodup (seed n : Nat) :
    (seededShuffle seed (List.range n)).Nodup :=
  (seededShuffle_perm seed (List.range n)).nodup_iff.mpr (List.nodup_range n)

theorem train_test_split_spec (files : List String) (labels : List (List ℚ))
    (num den seed : Nat) (hnd : files.Nodup) :
    (∀ x ∈ (train_test_split files labels num den seed).1, x ∈ files) ∧
    (∀ x ∈ (train_test_split files labels num den seed).2.1, x ∈ files) ∧
    (∀ x ∈ (train_test_split files labels num den seed).1,
      x ∉ (train_test_split files labels num den seed).2.1) := by
  simp only [train_test_split]
  set p := seededShuffle seed (List.range files.length) with hp
  set t := nTest files.length num den with ht
  have hmem : ∀ i ∈ p, files.getD i "" ∈ files := by
    intro i hip
    have hilt : i < files.length := seededShuffle_range_lt hip
    rw [List.getD_eq_getElem _ _ hilt]
    exact List.getElem_mem hilt
  have hpnd : p.Nodup := seededShuffle_range_nodup seed files.length
  have hdisj : ∀ a ∈ p.take t, a ∉ p.drop t := by
    have h2 := hpnd
    rw [← List.take_append_drop t p] at h2
    exact (List.nodup_append.mp h2).2.2
  refine ⟨?_, ?_, ?_⟩
  · intro x hx
    obtain ⟨i, hip, rfl⟩ := List.mem_map.mp hx
    exact hmem i (List.mem_of_mem_drop hip)
  · intro x hx
    obtain ⟨i, hip, rfl⟩ := List.mem_map.mp hx
    exact hmem i (List.mem_of_mem_take hip)
  · intro x hx hx2
    obtain ⟨i, hid, hieq⟩ := List.mem_map.mp hx
    obtain ⟨j, hjt, hjeq⟩ := List.mem_map.mp hx2
    have hilt : i < files.length := seededShuffle_range_lt (List.mem_of_mem_drop hid)
    have hjlt : j < files.length := seededShuffle_range_lt (List.mem_of_mem_take hjt)
    have heq : files[i] = files[j] := by
      rw [List.getD_eq_getElem _ _ hilt] at hieq
      rw [List.getD_eq_getElem _ _ hjlt] at hjeq
      rw [hieq, hjeq]
    have hij : i = j := (hnd.getElem_inj_iff).mp heq
    subst hij
    exact hdisj i hjt hid

theorem removeCorrupted_nodup {l : List String} (hnd : l.Nodup) :
    (removeCorrupted l).Nodup := by
  unfold removeCorrupted corrupted_files
  simp only [List.foldl_cons, List.foldl_nil]
  by_cases hmem : "ID_6431af929.dcm" ∈ l
  · rw [if_pos hmem]
    exact List.Nodup.erase _ hnd
  · rw [if_neg hmem]
    exact hnd

theorem corrupted_not_mem_removeCorrupted {l : List String} (hnd : l.Nodup)
    {c : String} (hc : c ∈ corrupted_files) : c ∉ removeCorrupted l := by
  have hcid : c = "ID_6431af929.dcm" := by
    simpa [corrupted_files] using hc
  subst hcid
  unfold removeCorrupted corrupted_files
  simp only [List.foldl_cons, List.foldl_nil]
  by_cases hmem : "ID_6431af929.dcm" ∈ l
  · rw [if_pos hmem]
    exact hnd.not_mem_erase
  · rw [if_neg hmem]
    exact hmem

theorem rsna_split_override (fs : RsnaFS) (num den seed : Nat) :
    rsna_train_valid_split fs num den seed true =
      match rsnaRebuildCore fs.dirFiles fs.labelCsv num den seed with
      | .error e => .error e
      | .ok r => .ok (r, writeArtifacts fs r) := by
  unfold rsna_train_valid_split
  rw [if_neg]
  simp

theorem rsnaRebuildCore_ok {dir : List String} {csv : List (String × ℚ)}
    {num den seed : Nat} {r : SplitResult}
    (h : rsnaRebuildCore dir csv num den seed = .ok r) :
    ∃ labels,
      optTraverse (fileLabels (buildLabelsDict csv)) (removeCorrupted dir) =
        some labels ∧
      r = ⟨(train_test_split (removeCorrupted dir) labels num den seed).1,
           (train_test_split (removeCorrupted dir) labels num den seed).2.2.1,
           (train_test_split (removeCorrupted dir) labels num den seed).2.1,
           (train_test_split (removeCorrupted dir) labels num den seed).2.2.2⟩ := by
  simp only [rsnaRebuildCore] at h
  cases htr : optTraverse (fileLabels (buildLabelsDict csv)) (removeCorrupted dir) with
  | none =>
    rw [htr] at h
    cases h
  | some labels =>
    rw [htr] at h
    refine ⟨labels, rfl, ?_⟩
    simp only [Except.ok.injEq] at h
    exact h.symm

/-! ### C3 -/

/-- C3: for every filesystem state (root directory listing and label table),
validation fraction and seed, a split actually built by the split builder
has disjoint train and validation filename sets, and no identifier on the
fixed denylist appears in either subset, even if such a file is present on
disk; the directory listing is duplicate-free, as an `os.listdir` result
always is. -/
theorem c3_split_disjoint_denylist (fs : RsnaFS) (num den seed : Nat)
    (r : SplitResult) (fs2 : RsnaFS) (hnd : fs.dirFiles.Nodup)
    (h : rsna_train_valid_split fs num den seed true = .ok (r, fs2)) :
    (∀ x ∈ r.trainFiles, x ∉ r.validFiles) ∧
    (∀ c ∈ corrupted_files, c ∉ r.trainFiles ∧ c ∉ r.validFiles) := by
  rw [rsna_split_override] at h
  cases hcore : rsnaRebuildCore fs.dirFiles fs.labelCsv num den seed with
  | error e =>
    rw [hcore] at h
    cases h
  | ok r0 =>
    rw [hcore] at h
    simp only [Except.ok.injEq, Prod.mk.injEq] at h
    obtain ⟨hr, hfs⟩ := h
    subst hr
    obtain ⟨labels, hlab, hreq⟩ := rsnaRebuildCore_ok hcore
    subst hreq
    have htnd := removeCorrupted_nodup hnd
    have hspec := train_test_split_spec (removeCorrupted fs.dirFiles) labels
      num den seed htnd
    refine ⟨?_, ?_⟩
    · intro x hx
      exact hspec.2.2 x hx
    · intro c hc
      have hcnot := corrupted_not_mem_removeCorrupted hnd hc
      exact ⟨fun hcmem => hcnot (hspec.1 c hcmem),
             fun hcmem => hcnot (hspec.2.1 c hcmem)⟩

/-- C3 witness: a directory with two good files and the denylisted file on
disk, a complete label table, fraction 1/20 and seed 42. -/
theorem c3_split_disjoint_denylist_witness :
    (∀ x ∈ (SplitResult.mk ["b.dcm"] [[0, 0, 0, 0, 0, 0]] ["a.dcm"]
        [[1, 0, 0, 0, 0, 1]]).trainFiles,
      x ∉ (SplitResult.mk ["b.dcm"] [[0, 0, 0, 0, 0, 0]] ["a.dcm"]
        [[1, 0, 0, 0, 0, 1]]).validFiles) ∧
    (∀ c ∈ corrupted_files,
      c ∉ (SplitResult.mk ["b.dcm"] [[0, 0, 0, 0, 0, 0]] ["a.dcm"]
        [[1, 0, 0, 0, 0, 1]]).trainFiles ∧
      c ∉ (SplitResult.mk ["b.dcm"] [[0, 0, 0, 0, 0, 0]] ["a.dcm"]
        [[1, 0, 0, 0, 0, 1]]).validFiles) :=
  c3_split_disjoint_denylist
    ⟨["a.dcm", "b.dcm", "ID_6431af929.dcm"],
     [("a_epidural", 1), ("a_intraparenchymal", 0), ("a_intraventricular", 0),
      ("a_subarachnoid", 0), ("a_subdural", 0), ("a_any", 1),
      ("b_epidural", 0), ("b_intraparenchymal", 0), ("b_intraventricular", 0),
      ("b_subarachnoid", 0), ("b_subdural", 0), ("b_any", 0)],
     none, none, none, none⟩ 1 20 42
    (SplitResult.mk ["b.dcm"] [[0, 0, 0, 0, 0, 0]] ["a.dcm"]
      [[1, 0, 0, 0, 0, 1]])
    ⟨["a.dcm", "b.dcm", "ID_6431af929.dcm"],
     [("a_epidural", 1), ("a_intraparenchymal", 0), ("a_intraventricular", 0),
      ("a_subarachnoid", 0), ("a_subdural", 0), ("a_any", 1),
      ("b_epidural", 0), ("b_intraparenchymal", 0), ("b_intraventricular", 0),
      ("b_subarachnoid", 0), ("b_subdural", 0), ("b_any", 0)],
     some ["b.dcm"], some [[0, 0, 0, 0, 0, 0]], some ["a.dcm"],
     some [[1, 0, 0, 0, 0, 1]]⟩
    (by decide) rfl

/-! ### C4 -/

/-- C4: two runs of the split builder with `force_rebuild` true, the second
on the state the first left behind (same directory listing and label table,
same fraction and seed), return identical split results: the rebuilt split
is a deterministic function of its inputs. -/
theorem c4_split_reproducible (fs : RsnaFS) (num den seed : Nat)
    (r1 r2 : SplitResult) (fs1 fs2 : RsnaFS)
    (h1 : rsna_train_valid_split fs num den seed true = .ok (r1, fs1))
    (h2 : rsna_train_valid_split fs1 num den seed true = .ok (r2, fs2)) :
    r1 = r2 := by
  rw [rsna_split_override] at h1 h2
  cases hcore : rsnaRebuildCore fs.dirFiles fs.labelCsv num den seed with
  | error e =>
    rw [hcore] at h1
    cases h1
  | ok r0 =>
    rw [hcore] at h1
    simp only [Except.ok.injEq, Prod.mk.injEq] at h1
    obtain ⟨hr1, hfs1⟩ := h1
    subst hfs1
    have hproj :
        rsnaRebuildCore (writeArtifacts fs r0).dirFiles
          (writeArtifacts fs r0).labelCsv num den seed =
        rsnaRebuildCore fs.dirFiles fs.labelCsv num den seed := rfl
    rw [hproj, hcore] at h2
    simp only [Except.ok.injEq, Prod.mk.injEq] at h2
    obtain ⟨hr2, hfs2⟩ := h2
    rw [← hr1, ← hr2]

/-- C4 witness: two forced rebuilds in sequence on a concrete state, the
second seeing the artifacts the first persisted. -/
theorem c4_split_reproducible_witness :
    SplitResult.mk [] [] [] [] = SplitResult.mk [] [] [] [] :=
  c4_split_reproducible ⟨[], [], none, none, none, none⟩ 1 20 42
    (SplitResult.mk [] [] [] []) (SplitResult.mk [] [] [] [])
    ⟨[], [], some [], some [], some [], some []⟩
    ⟨[], [], some [], some [], some [], some []⟩ rfl rfl

/-! ### C5 -/

/-- C5: when all four persisted artifacts exist and `force_rebuild` is
false, the split builder returns the persisted collections unchanged with
the filesystem state untouched (no artifact written), and the result is
the same for every directory listing and label table, i.e. the fast path
neither enumerates the source directory nor reads the CSV. -/
theorem c5_fast_path (fs : RsnaFS) (num den seed : Nat)
    (tf vf : List String) (tl vl : List (List ℚ))
    (h1 : fs.trainFileArt = some tf) (h2 : fs.trainLabelArt = some tl)
    (h3 : fs.validFileArt = some vf) (h4 : fs.validLabelArt = some vl) :
    rsna_train_valid_split fs num den seed false =
      .ok (⟨tf, tl, vf, vl⟩, fs) ∧
    ∀ (dir : List String) (csv : List (String × ℚ)),
      rsna_train_valid_split ⟨dir, csv, fs.trainFileArt, fs.trainLabelArt,
          fs.validFileArt, fs.validLabelArt⟩ num den seed false =
        .ok (⟨tf, tl, vf, vl⟩, ⟨dir, csv, fs.trainFileArt, fs.trainLabelArt,
          fs.validFileArt, fs.validLabelArt⟩) := by
  constructor
  · unfold rsna_train_valid_split
    rw [if_pos ⟨by simp [h1], by simp [h3], by simp [h2], by simp [h4], rfl⟩]
    simp [h1, h2, h3, h4]
  · intro dir csv
    unfold rsna_train_valid_split
    rw [if_pos ⟨by simp [h1], by simp [h3], by simp [h2], by simp [h4], rfl⟩]
    simp [h1, h2, h3, h4]

/-- C5 witness: a state with all four artifacts present, probed with two
different directory listings and label tables. -/
theorem c5_fast_path_witness :
    rsna_train_valid_split ⟨["d.dcm"], [("k", 1)], some ["t.dcm"],
        some [[1, 0, 0, 0, 0, 1]], some ["v.dcm"], some [[0, 0, 0, 0, 0, 0]]⟩
        1 20 42 false =
      .ok (⟨["t.dcm"], [[1, 0, 0, 0, 0, 1]], ["v.dcm"], [[0, 0, 0, 0, 0, 0]]⟩,
        ⟨["d.dcm"], [("k", 1)], some ["t.dcm"], some [[1, 0, 0, 0, 0, 1]],
         some ["v.dcm"], some [[0, 0, 0, 0, 0, 0]]⟩) ∧
    rsna_train_valid_split ⟨["zz"], [("q", 2)], some ["t.dcm"],
        some [[1, 0, 0, 0, 0, 1]], some ["v.dcm"], some [[0, 0, 0, 0, 0, 0]]⟩
        1 20 42 false =
      .ok (⟨["t.dcm"], [[1, 0, 0, 0, 0, 1]], ["v.dcm"], [[0, 0, 0, 0, 0, 0]]⟩,
        ⟨["zz"], [("q", 2)], some ["t.dcm"], some [[1, 0, 0, 0, 0, 1]],
         some ["v.dcm"], some [[0, 0, 0, 0, 0, 0]]⟩) :=
  ⟨(c5_fast_path ⟨["d.dcm"], [("k", 1)], some ["t.dcm"],
      some [[1, 0, 0, 0, 0, 1]], some ["v.dcm"], some [[0, 0, 0, 0, 0, 0]]⟩
      1 20 42 ["t.dcm"] ["v.dcm"] [[1, 0, 0, 0, 0, 1]] [[0, 0, 0, 0, 0, 0]]
      rfl rfl rfl rfl).1,
   (c5_fast_path ⟨["d.dcm"], [("k", 1)], some ["t.dcm"],
      some [[1, 0, 0, 0, 0, 1]], some ["v.dcm"], some [[0, 0, 0, 0, 0, 0]]⟩
      1 20 42 ["t.dcm"] ["v.dcm"] [[1, 0, 0, 0, 0, 1]] [[0, 0, 0, 0, 0, 0]]
      rfl rfl rfl rfl).2 ["zz"] [("q", 2)]⟩

/-! ### C6 -/

/-- C6: on the rebuild path, the split builder fails with the
missing-label error whenever some enumerated file (after denylist removal)
has a base identifier with no row in the label table for any subtype; when
every such identifier has rows for all six subtypes, label construction
succeeds and no error is raised. -/
theorem c6_missing_label (fs : RsnaFS) (num den seed : Nat) :
    ((∃ f ∈ removeCorrupted fs.dirFiles, ∀ st ∈ SUBTYPES,
        buildLabelsDict fs.labelCsv (baseId f ++ "_" ++ st) = none) →
      rsna_train_valid_split fs num den seed true =
        .error .missingLabel) ∧
    ((∀ f ∈ removeCorrupted fs.dirFiles, ∀ st ∈ SUBTYPES,
        (buildLabelsDict fs.labelCsv (baseId f ++ "_" ++ st)).isSome) →
      ∃ r fs2,
        rsna_train_valid_split fs num den seed true = .ok (r, fs2)) := by
  constructor
  · rintro ⟨f, hf, hall⟩
    rw [rsna_split_override]
    have hfl : fileLabels (buildLabelsDict fs.labelCsv) f = none := by
      unfold fileLabels
      exact optTraverse_eq_none _ (by simp [SUBTYPES])
        (hall "epidural" (by simp [SUBTYPES]))
    have hnone :
        optTraverse (fileLabels (buildLabelsDict fs.labelCsv))
          (removeCorrupted fs.dirFiles) = none :=
      optTraverse_eq_none _ hf hfl
    simp only [rsnaRebuildCore]
    rw [hnone]
  · intro hall
    have hsome : ∀ f ∈ removeCorrupted fs.dirFiles,
        (fileLabels (buildLabelsDict fs.labelCsv) f).isSome := by
      intro f hf
      unfold fileLabels
      obtain ⟨bs, hbs⟩ :=
        optTraverse_isSome _ SUBTYPES (fun st hst => hall f hf st hst)
      simp [hbs]
    obtain ⟨labels, hlab⟩ :=
      optTraverse_isSome _ (removeCorrupted fs.dirFiles) hsome
    rw [rsna_split_override]
    simp only [rsnaRebuildCore]
    rw [hlab]
    exact ⟨_, _, rfl⟩

/-- C6 witness: a one-file directory with an empty label table fails with
the missing-label error; the same directory with all six subtype rows
present succeeds. -/
theorem c6_missing_label_witness :
    rsna_train_valid_split ⟨["x.dcm"], [], none, none, none, none⟩ 1 20 42
      true = .error .missingLabel ∧
    ∃ r fs2,
      rsna_train_valid_split ⟨["x.dcm"],
        [("x_epidural", 1), ("x_intraparenchymal", 0),
         ("x_intraventricular", 0), ("x_subarachnoid", 0), ("x_subdural", 0),
         ("x_any", 1)], none, none, none, none⟩ 1 20 42 true =
        .ok (r, fs2) :=
  ⟨(c6_missing_label ⟨["x.dcm"], [], none, none, none, none⟩ 1 20 42).1
     (by decide),
   (c6_missing_label ⟨["x.dcm"],
      [("x_epidural", 1), ("x_intraparenchymal", 0), ("x_intraventricular", 0),
       ("x_subarachnoid", 0), ("x_subdural", 0), ("x_any", 1)],
      none, none, none, none⟩ 1 20 42).2 (by decide)⟩
